import Mathlib

/-!
Verification of the row-processing pipeline of `address-to-latlon`
(`src/app/page.tsx`): CSV records are enriched with geocoding results,
progress is reported per row, and the enriched set can be exported in a
separate- or combined-coordinate shape.

Modelling choices (shallow embedding):
* A CSV cell value is a JavaScript string or number (`Value`); an absent
  field is `Option.none` at lookup.  Coordinates are modelled as exact
  rationals (`Rat`); JavaScript number-to-string rendering is abstracted
  by `Rat`'s `toString`.
* A parsed record (`Row`) is the ordered association list of its named
  fields, as produced by the header-driven CSV parser.
* An enriched record (`GeocodedRow`) keeps the base fields and carries the
  four fields the pipeline may add (`latitude`, `longitude`,
  `geocoding_status`, `error_message`) as `Option`s, mirroring the
  optional fields of the TypeScript `GeocodedRow` interface.
* The external geocoder (`getLatLng`) is modelled by its observable
  behaviour on one call (`GatewayBehavior`): it invokes the success
  callback with a result, invokes the error callback, or is not installed
  at all.  `geocodeAddress` is the promise wrapper from the source.
* React state updates are modelled by explicit state passing on
  `AppState`; each handler returns the updated state together with the
  observable event log it produced (progress reports, gateway calls).
-/

/-- A JavaScript cell value as used by the pipeline: a string (what the
CSV parser produces) or a number (what geocoding adds). -/
inductive Value where
  | str (s : String)
  | num (q : Rat)
deriving DecidableEq, Repr

/-- JavaScript truthiness of a `Value` (`value ? … : …` in the source):
the empty string and the number `0` are falsy. -/
def Value.truthy : Value → Bool
  | .str s => s ≠ ""
  | .num q => q ≠ 0

/-- JavaScript `String(value)` on a cell value. -/
def Value.toStr : Value → String
  | .str s => s
  | .num q => toString q

/-- A parsed CSV record: its named fields in header order. -/
abbrev Row := List (String × Value)

/-- JavaScript `row[col]`: the value of field `col`, `none` when absent
(`undefined`). -/
def Row.get (row : Row) (col : String) : Option Value :=
  (row.find? (fun p => p.1 == col)).map (fun p => p.2)

/-- Every field of the row holds a string value, as a header-driven CSV
parse (no dynamic typing) guarantees. -/
def Row.allStrings (row : Row) : Prop :=
  ∀ p ∈ row, ∃ s, p.2 = Value.str s

/-- An enriched record: the base fields plus the four optional fields the
pipeline may attach (mirrors the TypeScript `GeocodedRow` interface:
`latitude?: number`, `longitude?: number`, `geocoding_status?: string`,
`error_message?: string`). -/
structure GeocodedRow where
  fields : Row
  latitude : Option Rat
  longitude : Option Rat
  geocoding_status : Option String
  error_message : Option String
deriving DecidableEq, Repr

/-- Status string attached on a successful geocode (`"成功"`, the
source's literal; the spec calls it `success`). -/
def statusSuccess : String := "成功"

/-- Status string attached on a failed geocode (`"失敗"`; `failure`). -/
def statusFailure : String := "失敗"

/-- Status string attached on a skipped record (`"スキップ"`;
`skipped`). -/
def statusSkipped : String := "スキップ"

/-- Error message for a record whose built address is empty
(`"住所が空です"`; the spec renders it "address is empty"). -/
def msgAddressEmpty : String := "住所が空です"

/-- Error message for a record whose geocode produced no usable result
(`"結果が見つかりません"`; the spec renders it "no result found"). -/
def msgNoResult : String := "結果が見つかりません"

/-- Observable behaviour of one call to the external geocoder
`getLatLng` from `geocodeAddress`'s point of view: it calls the success
callback with coordinates, calls the error callback, or the global
function is not installed (`typeof getLatLng === "undefined"`). -/
inductive GatewayBehavior where
  | result (lat lng : Rat)
  | errorCallback
  | unavailable
deriving DecidableEq, Repr

/-- The promise wrapper `geocodeAddress` of the source: resolves
`{lat, lng}` when the gateway delivers a result, and resolves `null` both
when the gateway signals an error and when the gateway function is not
installed.  It never rejects, so its outcome is a total `Option`. -/
def geocodeAddress : GatewayBehavior → Option (Rat × Rat)
  | .result lat lng => some (lat, lng)
  | .errorCallback => none
  | .unavailable => none

/-- JavaScript `String.prototype.trim`: remove whitespace from both ends
of the string (defined over the character list so it is kernel
computable). -/
def jsTrim (s : String) : String :=
  ⟨((s.data.dropWhile Char.isWhitespace).reverse.dropWhile
      Char.isWhitespace).reverse⟩

/-- One selected column's contribution to the address
(`value ? String(value).trim() : ""` in the source). -/
def addressPart (row : Row) (col : String) : String :=
  match row.get col with
  | some v => if v.truthy then jsTrim v.toStr else ""
  | none => ""

/-- The per-record address parts: each selected column's trimmed value,
with parts that are empty after trimming dropped
(`.filter((part) => part.length > 0)`). -/
def addressParts (addressColumns : List String) (row : Row) : List String :=
  (addressColumns.map (fun col => addressPart row col)).filter
    (fun part => part.length > 0)

/-- The address sent to the gateway: the parts joined with no separator
(`addressParts.join("")`). -/
def buildAddress (addressColumns : List String) (row : Row) : String :=
  String.join (addressParts addressColumns row)

/-- The body of one iteration of the source's row loop: build the
address; when non-empty call the gateway and classify the outcome, else
mark the record skipped.  Returns the enriched record together with the
list of addresses sent to the gateway during this record (`[]` or one
address). -/
def processRow (gw : String → GatewayBehavior) (addressColumns : List String)
    (row : Row) : GeocodedRow × List String :=
  let address := buildAddress addressColumns row
  if address ≠ "" then
    match geocodeAddress (gw address) with
    | some coords =>
        ({ fields := row, latitude := some coords.1, longitude := some coords.2,
           geocoding_status := some statusSuccess, error_message := none },
         [address])
    | none =>
        ({ fields := row, latitude := none, longitude := none,
           geocoding_status := some statusFailure,
           error_message := some msgNoResult },
         [address])
  else
    ({ fields := row, latitude := none, longitude := none,
       geocoding_status := some statusSkipped,
       error_message := some msgAddressEmpty },
     [])

/-- JavaScript `Math.round` on a non-negative value: round half up. -/
def jsRound (q : Rat) : Int := ⌊q + 1 / 2⌋

/-- Progress value reported after record `i` (0-based) of `total`
completes: `Math.round(((i + 1) / rows.length) * 100)`. -/
def progressAfter (i total : Nat) : Int :=
  jsRound (((i : Rat) + 1) / (total : Rat) * 100)

/-- The source's sequential `for` loop over the remaining rows, carrying
the 0-based index of the next row and the total row count.  Returns the
enriched records in order, the progress values reported (one per record,
in order), and the addresses sent to the gateway, in call order. -/
def processLoop (gw : String → GatewayBehavior) (addressColumns : List String) :
    List Row → Nat → Nat → List GeocodedRow × List Int × List String
  | [], _, _ => ([], [], [])
  | row :: rest, i, total =>
    let current := processRow gw addressColumns row
    let later := processLoop gw addressColumns rest (i + 1) total
    (current.1 :: later.1, progressAfter i total :: later.2.1,
     current.2 ++ later.2.2)

/-- Error message surfaced when no file or no address column is selected
(`"ファイルと住所列を選択してください"`). -/
def errSelectFileAndColumn : String := "ファイルと住所列を選択してください"

/-- Error message surfaced when the geocoding service has not finished
loading (`"ジオコーディングサービスがロード中です。お待ちください..."`). -/
def errGeocoderLoading : String := "ジオコーディングサービスがロード中です。お待ちください..."

/-- The page's reactive state, as explicit data.  `file` holds the parsed
record sequence of the selected file (`none` when no file is selected);
the remaining fields mirror the `useState` hooks of the source. -/
structure AppState where
  file : Option (List Row)
  data : List GeocodedRow
  addressColumns : List String
  columns : List String
  loading : Bool
  progress : Int
  error : String
  success : Bool
  geocoderReady : Bool
  inputEncoding : String
deriving DecidableEq, Repr

/-- The `handleProcess` handler on the path where reading and parsing the
selected file succeed (the parsed rows are the value stored in `file`).
Returns the final state, the sequence of progress values reported during
the run (the initial `setProgress(0)` followed by one report per record),
and the addresses sent to the gateway in call order.  The precondition
checks happen before any state or progress change, exactly as in the
source. -/
def handleProcess (gw : String → GatewayBehavior) (s : AppState) :
    AppState × List Int × List String :=
  match s.file with
  | none => ({ s with error := errSelectFileAndColumn }, [], [])
  | some rows =>
    if s.addressColumns.length = 0 then
      ({ s with error := errSelectFileAndColumn }, [], [])
    else if ¬ s.geocoderReady then
      ({ s with error := errGeocoderLoading }, [], [])
    else
      let (geocodedRows, loopReports, calls) :=
        processLoop gw s.addressColumns rows 0 rows.length
      let reports := 0 :: loopReports
      ({ s with
          loading := false
          error := ""
          progress := reports.getLastD 0
          data := geocodedRows
          success := true },
       reports, calls)

/-- The `handleFileChange` handler on the path where a file is selected
and its read and parse succeed with the record sequence `rows`: store the
file, clear error/success/data/progress, and, when the parse is
non-empty, re-infer the columns and seed the address-column selection
with the first column — but only if the current selection is empty
(`if (addressColumns.length === 0 && cols.length > 0)`). -/
def handleFileChange (rows : List Row) (s : AppState) : AppState :=
  let s1 := { s with
    file := some rows
    error := ""
    success := false
    data := []
    progress := 0 }
  match rows with
  | [] => s1
  | firstRow :: _ =>
    let cols := firstRow.map (fun p => p.1)
    let s2 := { s1 with columns := cols }
    if s2.addressColumns.length = 0 ∧ cols.length > 0 then
      { s2 with addressColumns := [cols.headD ""] }
    else s2

/-- The encoding `select`'s `onChange` handler on the path where
re-reading and re-parsing the stored file succeed with the record
sequence `rows`: store the new encoding and, when the parse is non-empty,
re-infer the columns and reset the address-column selection to the first
column unconditionally (`setAddressColumns([cols[0] || ""])`). -/
def handleEncodingChange (newEncoding : String) (rows : List Row)
    (s : AppState) : AppState :=
  let s1 := { s with inputEncoding := newEncoding }
  match rows with
  | [] => s1
  | firstRow :: _ =>
    let cols := firstRow.map (fun p => p.1)
    { s1 with columns := cols, addressColumns := [cols.headD ""] }

/-- The coordinate output shape selected for export. -/
inductive CoordinateFormat where
  | separate
  | combined
deriving DecidableEq, Repr

/-- A record in export shape: the enriched fields plus the optional
`lat_lon` field that combined mode adds. -/
structure ExportRow where
  fields : Row
  latitude : Option Rat
  longitude : Option Rat
  geocoding_status : Option String
  error_message : Option String
  lat_lon : Option String
deriving DecidableEq, Repr

/-- The identity embedding of an enriched record into export shape (what
separate mode exports: the record unchanged, no `lat_lon` field). -/
def GeocodedRow.toExportRow (r : GeocodedRow) : ExportRow :=
  { fields := r.fields, latitude := r.latitude, longitude := r.longitude,
    geocoding_status := r.geocoding_status, error_message := r.error_message,
    lat_lon := none }

/-- The `lat_lon` string of combined mode:
`typeof latitude === "number" && typeof longitude === "number" ?
`${latitude},${longitude}` : ""`. -/
def latLonField (latitude longitude : Option Rat) : String :=
  match latitude, longitude with
  | some la, some lo => toString la ++ "," ++ toString lo
  | _, _ => ""

/-- The `buildExportRows` function of the source: in combined mode map
each stored record to a copy with `latitude`/`longitude` removed and
`lat_lon` added; otherwise return the stored records as they are. -/
def buildExportRows (coordinateFormat : CoordinateFormat)
    (data : List GeocodedRow) : List ExportRow :=
  if coordinateFormat = .combined then
    data.map (fun row =>
      { fields := row.fields, latitude := none, longitude := none,
        geocoding_status := row.geocoding_status,
        error_message := row.error_message,
        lat_lon := some (latLonField row.latitude row.longitude) })
  else
    data.map GeocodedRow.toExportRow

/-- The address construction as the spec words it, for comparison with
`buildAddress`: take the values of the selected address columns in
selection order, trim whitespace from each value, drop values that are
empty after trimming, and join the remainder with no separator. -/
def specBuildAddress (addressColumns : List String) (row : Row) : String :=
  String.join (((addressColumns.filterMap (fun col => row.get col)).map
    (fun v => jsTrim v.toStr)).filter (fun part => part ≠ ""))

/-! ## Helper lemmas about the row loop -/

theorem processLoop_fst (gw : String → GatewayBehavior) (cols : List String) :
    ∀ (rows : List Row) (i total : Nat),
    (processLoop gw cols rows i total).1 =
      rows.map (fun row => (processRow gw cols row).1)
  | [], _, _ => rfl
  | row :: rest, i, total => by
    simp [processLoop, processLoop_fst gw cols rest (i + 1) total]

theorem processLoop_reports (gw : String → GatewayBehavior) (cols : List String) :
    ∀ (rows : List Row) (i total : Nat),
    (processLoop gw cols rows i total).2.1 =
      (List.range rows.length).map (fun k => progressAfter (i + k) total)
  | [], _, _ => rfl
  | row :: rest, i, total => by
    have ih := processLoop_reports gw cols rest (i + 1) total
    simp only [processLoop, List.length_cons, List.range_succ_eq_map,
      List.map_cons, List.map_map, ih]
    refine congrArg₂ _ (by simp) (List.map_congr_left fun k _ => ?_)
    simp only [Function.comp]
    congr 1
    omega

theorem processLoop_calls (gw : String → GatewayBehavior) (cols : List String) :
    ∀ (rows : List Row) (i total : Nat),
    (processLoop gw cols rows i total).2.2 =
      rows.flatMap (fun row => (processRow gw cols row).2)
  | [], _, _ => rfl
  | row :: rest, i, total => by
    simp [processLoop, processLoop_calls gw cols rest (i + 1) total,
      List.flatMap_cons]

/-! ## Claim theorems -/

/-- C1: For every input record sequence, the row pipeline produces an
enriched output of the same length and in the same order as the input,
and each output record is determined by its own input record alone — so
a failing or skipped row never prevents any later row from being
processed, and the loop never aborts on a per-row outcome. -/
theorem rowPipeline_same_length_order (gw : String → GatewayBehavior)
    (addressColumns : List String) (rows : List Row) :
    (processLoop gw addressColumns rows 0 rows.length).1.length = rows.length ∧
    ∀ i : Nat, (processLoop gw addressColumns rows 0 rows.length).1[i]? =
      (rows[i]?).map (fun row => (processRow gw addressColumns row).1) := by
  rw [processLoop_fst]
  exact ⟨List.length_map _ _, fun i => List.getElem?_map _ _ _⟩

/-- C2: Every record produced by the row pipeline carries exactly one of
the three statuses (the three status strings are pairwise distinct and
`geocoding_status` holds exactly one of them), `latitude` and `longitude`
are both present iff the status is success, and `error_message` is
present iff the status is failure or skipped. -/
theorem processRow_status_invariant (gw : String → GatewayBehavior)
    (addressColumns : List String) (row : Row) :
    ((processRow gw addressColumns row).1.geocoding_status = some statusSuccess ∨
     (processRow gw addressColumns row).1.geocoding_status = some statusFailure ∨
     (processRow gw addressColumns row).1.geocoding_status = some statusSkipped) ∧
    (statusSuccess ≠ statusFailure ∧ statusSuccess ≠ statusSkipped ∧
     statusFailure ≠ statusSkipped) ∧
    (((processRow gw addressColumns row).1.latitude.isSome ∧
      (processRow gw addressColumns row).1.longitude.isSome) ↔
      (processRow gw addressColumns row).1.geocoding_status = some statusSuccess) ∧
    ((processRow gw addressColumns row).1.error_message.isSome ↔
      ((processRow gw addressColumns row).1.geocoding_status = some statusFailure ∨
       (processRow gw addressColumns row).1.geocoding_status = some statusSkipped)) := by
  have hdist : statusSuccess ≠ statusFailure ∧ statusSuccess ≠ statusSkipped ∧
      statusFailure ≠ statusSkipped := by decide
  rcases hdist with ⟨h1, h2, h3⟩
  have h4 := Ne.symm h1
  have h5 := Ne.symm h2
  have h6 := Ne.symm h3
  simp only [processRow]
  split
  · split
    · simp_all
    · simp_all
  · simp_all

/-- C9: The internal geocoding wrapper is a total function into an
optional coordinate pair: a gateway result resolves to that pair, while
a gateway error callback and an unavailable gateway function both
resolve to `null`, so every call has exactly one of the two outcomes and
no exception can escape into the row loop. -/
theorem geocodeAddress_never_rejects :
    (∀ lat lng : Rat, geocodeAddress (.result lat lng) = some (lat, lng)) ∧
    geocodeAddress .errorCallback = none ∧
    geocodeAddress .unavailable = none ∧
    ∀ g : GatewayBehavior,
      geocodeAddress g = none ∨ ∃ p : Rat × Rat, geocodeAddress g = some p := by
  refine ⟨fun _ _ => rfl, rfl, rfl, fun g => ?_⟩
  cases g with
  | result lat lng => exact Or.inr ⟨(lat, lng), rfl⟩
  | errorCallback => exact Or.inl rfl
  | unavailable => exact Or.inl rfl

/-! ## Address construction matches its specification -/

theorem string_length_pos_iff (s : String) : 0 < s.length ↔ s ≠ "" := by
  rw [Nat.pos_iff_ne_zero]
  constructor
  · intro hne hs
    subst hs
    exact hne rfl
  · intro hne hl
    exact hne (String.ext (List.length_eq_zero.mp hl))

theorem addressParts_eq_spec (addressColumns : List String) (row : Row)
    (h : row.allStrings) :
    addressParts addressColumns row =
      ((addressColumns.filterMap (fun col => row.get col)).map
        (fun v => jsTrim v.toStr)).filter (fun part => part ≠ "") := by
  induction addressColumns with
  | nil => rfl
  | cons col rest ih =>
    cases hv : row.get col with
    | none =>
      simpa [addressParts, List.filter_cons, List.filterMap_cons, hv,
        addressPart] using ih
    | some v =>
      obtain ⟨q, hq, hq2⟩ : ∃ q, row.find? (fun p => p.1 == col) = some q ∧
          q.2 = v := by
        simpa [Row.get, Option.map_eq_some'] using hv
      obtain ⟨s, hsv⟩ := h q (List.mem_of_find?_eq_some hq)
      have hvs : v = Value.str s := hq2 ▸ hsv
      subst hvs
      by_cases hse : s = ""
      · subst hse
        simpa [addressParts, List.filter_cons, List.filterMap_cons, hv,
          addressPart, Value.truthy, Value.toStr, jsTrim] using ih
      · have htriv : Value.truthy (Value.str s) = true := by
          simp [Value.truthy, hse]
        by_cases ht : jsTrim s = ""
        · simpa [addressParts, List.filter_cons, List.filterMap_cons, hv,
            addressPart, htriv, Value.toStr, ht,
            (string_length_pos_iff (jsTrim s)).symm] using ih
        · have hlen : 0 < (jsTrim s).length := (string_length_pos_iff _).mpr ht
          simpa [addressParts, List.filter_cons, List.filterMap_cons, hv,
            addressPart, htriv, Value.toStr, ht, hlen] using ih

/-- C3: The address sent to the gateway is built by taking the values of
the selected address columns in selection order, trimming whitespace from
each value, dropping values empty after trimming, and joining the
remainder with no separator (for records whose fields hold string values,
as the CSV parser produces); and if the built address is empty the record
gets status skipped and no gateway call is made. -/
theorem buildAddress_spec_and_skip (gw : String → GatewayBehavior)
    (addressColumns : List String) (row : Row) (h : row.allStrings) :
    buildAddress addressColumns row = specBuildAddress addressColumns row ∧
    (buildAddress addressColumns row = "" →
      (processRow gw addressColumns row).1.geocoding_status =
        some statusSkipped ∧
      (processRow gw addressColumns row).2 = []) := by
  refine ⟨congrArg String.join (addressParts_eq_spec addressColumns row h), ?_⟩
  intro he
  simp [processRow, he]

/-- C3 witness: a record whose only selected field is whitespace builds
the empty address, is skipped, and triggers no gateway call. -/
theorem buildAddress_spec_and_skip_witness :
    buildAddress ["addr"] [("addr", Value.str "  ")] = "" ∧
    (processRow (fun _ => GatewayBehavior.unavailable) ["addr"]
      [("addr", Value.str "  ")]).1.geocoding_status = some statusSkipped ∧
    (processRow (fun _ => GatewayBehavior.unavailable) ["addr"]
      [("addr", Value.str "  ")]).2 = [] := by
  have hws : Row.allStrings [("addr", Value.str "  ")] := by
    intro p hp
    rw [List.mem_singleton] at hp
    subst hp
    exact ⟨"  ", rfl⟩
  have hmain := buildAddress_spec_and_skip (fun _ => GatewayBehavior.unavailable)
    ["addr"] [("addr", Value.str "  ")] hws
  have he : buildAddress ["addr"] [("addr", Value.str "  ")] = "" := by decide
  exact ⟨he, (hmain.2 he).1, (hmain.2 he).2⟩

/-- C4: A record whose built address is empty gets
`error_message = "住所が空です"` ("address is empty") with status
skipped; a record whose gateway call resolves null gets status failure
with `error_message = "結果が見つかりません"` ("no result found"); and a
null resolution and an errored call are treated identically — the row
outcome depends on the gateway only through `geocodeAddress`, which maps
the error callback and an unavailable gateway to the same `none`. -/
theorem errorMessages_and_uniform_failure (gw : String → GatewayBehavior)
    (addressColumns : List String) (row : Row) :
    (buildAddress addressColumns row = "" →
      (processRow gw addressColumns row).1.error_message =
        some msgAddressEmpty ∧
      (processRow gw addressColumns row).1.geocoding_status =
        some statusSkipped) ∧
    (buildAddress addressColumns row ≠ "" →
      geocodeAddress (gw (buildAddress addressColumns row)) = none →
      (processRow gw addressColumns row).1.geocoding_status =
        some statusFailure ∧
      (processRow gw addressColumns row).1.error_message =
        some msgNoResult) ∧
    (∀ gw2 : String → GatewayBehavior,
      (∀ a : String, geocodeAddress (gw a) = geocodeAddress (gw2 a)) →
      processRow gw addressColumns row = processRow gw2 addressColumns row) ∧
    geocodeAddress GatewayBehavior.errorCallback =
      geocodeAddress GatewayBehavior.unavailable := by
  refine ⟨?_, ?_, ?_, rfl⟩
  · intro he
    simp [processRow, he]
  · intro hne hnull
    simp [processRow, hne, hnull]
  · intro gw2 hsame
    simp only [processRow]
    rw [hsame (buildAddress addressColumns row)]

/-- C4 witness: on a one-field record, the error-callback gateway yields
the fixed failure message, the empty address yields the fixed skip
message, and the error-callback gateway and an unavailable gateway give
identical outcomes. -/
theorem errorMessages_and_uniform_failure_witness :
    (processRow (fun _ => GatewayBehavior.errorCallback) ["a"]
      [("a", Value.str "x")]).1.error_message = some msgNoResult ∧
    (processRow (fun _ => GatewayBehavior.errorCallback) ["a"]
      [("a", Value.str "")]).1.error_message = some msgAddressEmpty ∧
    processRow (fun _ => GatewayBehavior.errorCallback) ["a"]
      [("a", Value.str "x")] =
      processRow (fun _ => GatewayBehavior.unavailable) ["a"]
        [("a", Value.str "x")] := by
  refine ⟨?_, ?_, ?_⟩
  · exact ((errorMessages_and_uniform_failure
      (fun _ => GatewayBehavior.errorCallback) ["a"]
      [("a", Value.str "x")]).2.1 (by decide) rfl).2
  · exact ((errorMessages_and_uniform_failure
      (fun _ => GatewayBehavior.errorCallback) ["a"]
      [("a", Value.str "")]).1 (by decide)).1
  · exact (errorMessages_and_uniform_failure
      (fun _ => GatewayBehavior.errorCallback) ["a"]
      [("a", Value.str "x")]).2.2.1 (fun _ => GatewayBehavior.unavailable)
      (fun _ => rfl)

/-- C6: The export transform is a pure function of the stored records:
separate mode passes every record through unchanged (no `lat_lon`
field); combined mode drops `latitude`/`longitude` from every record and
adds a single `lat_lon` field equal to `"{latitude},{longitude}"` when
both coordinates are present and to the empty string when either is
absent.  The stored record list is an unchanged input of the map. -/
theorem buildExportRows_pure_shape (data : List GeocodedRow) :
    buildExportRows CoordinateFormat.separate data =
      data.map GeocodedRow.toExportRow ∧
    (∀ r : GeocodedRow,
      r.toExportRow.fields = r.fields ∧ r.toExportRow.latitude = r.latitude ∧
      r.toExportRow.longitude = r.longitude ∧
      r.toExportRow.geocoding_status = r.geocoding_status ∧
      r.toExportRow.error_message = r.error_message ∧
      r.toExportRow.lat_lon = none) ∧
    (buildExportRows CoordinateFormat.combined data).length = data.length ∧
    (∀ i : Nat, (buildExportRows CoordinateFormat.combined data)[i]? =
      (data[i]?).map (fun row =>
        { fields := row.fields, latitude := none, longitude := none,
          geocoding_status := row.geocoding_status,
          error_message := row.error_message,
          lat_lon := some (latLonField row.latitude row.longitude) })) ∧
    (∀ la lo : Rat, latLonField (some la) (some lo) =
      toString la ++ "," ++ toString lo) ∧
    (∀ la lo : Option Rat, la = none ∨ lo = none → latLonField la lo = "") := by
  refine ⟨?_, fun r => ⟨rfl, rfl, rfl, rfl, rfl, rfl⟩, ?_, ?_, fun _ _ => rfl, ?_⟩
  · simp [buildExportRows]
  · simp [buildExportRows]
  · intro i
    simp [buildExportRows]
  · intro la lo h
    rcases h with h | h
    · subst h
      cases lo <;> rfl
    · subst h
      cases la <;> rfl

/-- C6 witness: the combined-mode `lat_lon` field is empty when a
coordinate is absent, and separate mode on the empty store is the empty
export. -/
theorem buildExportRows_pure_shape_witness :
    latLonField none (some 35) = "" ∧
    buildExportRows CoordinateFormat.separate [] = [] := by
  refine ⟨(buildExportRows_pure_shape []).2.2.2.2.2 none (some 35)
    (Or.inl rfl), ?_⟩
  have h := (buildExportRows_pure_shape []).1
  simpa using h

/-- C7: When a precondition fails — no file selected, empty
address-column selection, or gateway not ready — `handleProcess` only
surfaces one of the two fixed error messages: no row is processed, no
gateway call or progress report is made, and the result set and the rest
of the state are unchanged. -/
theorem preconditions_block_run (gw : String → GatewayBehavior) (s : AppState)
    (h : s.file = none ∨ s.addressColumns = [] ∨ s.geocoderReady = false) :
    (handleProcess gw s).1.data = s.data ∧
    (handleProcess gw s).1.success = s.success ∧
    (handleProcess gw s).1.progress = s.progress ∧
    (handleProcess gw s).1.loading = s.loading ∧
    (handleProcess gw s).1.file = s.file ∧
    (handleProcess gw s).1.addressColumns = s.addressColumns ∧
    (handleProcess gw s).1.columns = s.columns ∧
    (handleProcess gw s).2.1 = [] ∧
    (handleProcess gw s).2.2 = [] ∧
    ((handleProcess gw s).1.error = errSelectFileAndColumn ∨
     (handleProcess gw s).1.error = errGeocoderLoading) := by
  rcases hf : s.file with _ | rows
  · simp [handleProcess, hf]
  · rcases h with h | h | h
    · rw [hf] at h
      cases h
    · simp [handleProcess, hf, h]
    · by_cases hc : s.addressColumns.length = 0
      · simp [handleProcess, hf, hc]
      · simp [handleProcess, hf, hc, h]

/-- C7 witness: with no file selected the run is blocked with everything
unchanged and no gateway call. -/
theorem preconditions_block_run_witness :
    (handleProcess (fun _ => GatewayBehavior.unavailable)
      { file := none, data := [], addressColumns := [], columns := [],
        loading := false, progress := 0, error := "", success := false,
        geocoderReady := false, inputEncoding := "UTF-8" }).2.2 = [] ∧
    (handleProcess (fun _ => GatewayBehavior.unavailable)
      { file := none, data := [], addressColumns := [], columns := [],
        loading := false, progress := 0, error := "", success := false,
        geocoderReady := false, inputEncoding := "UTF-8" }).1.data = [] := by
  refine ⟨?_, ?_⟩
  · exact (preconditions_block_run (fun _ => GatewayBehavior.unavailable) _
      (Or.inl rfl)).2.2.2.2.2.2.2.2.1
  · exact (preconditions_block_run (fun _ => GatewayBehavior.unavailable) _
      (Or.inl rfl)).1

/-- C8 counterexample: loading a new file while a selection already
exists does not re-seed the selection.  With current selection `["b"]`
and a new file whose first inferred column is `"a"`, `handleFileChange`
leaves the selection at `["b"]`, which differs from `["a"]`. -/
theorem fileLoad_no_reseed_counterexample :
    (handleFileChange [[("a", Value.str "x")]]
      { file := none, data := [], addressColumns := ["b"], columns := [],
        loading := false, progress := 0, error := "", success := false,
        geocoderReady := true, inputEncoding := "UTF-8" }).addressColumns =
      ["b"] ∧
    (["b"] : List String) ≠ ["a"] := by
  constructor
  · decide
  · decide

/-- C8 amended: changing the encoding with a non-empty re-parse resets
the selection to exactly the first inferred column; loading a new file
seeds the selection to the first inferred column only when the current
selection is empty, and leaves a non-empty selection unchanged. -/
theorem columnSelection_reseed (s : AppState) (newEncoding : String)
    (firstRow : Row) (rest : List Row) :
    (handleEncodingChange newEncoding (firstRow :: rest) s).addressColumns =
      [(firstRow.map (fun p => p.1)).headD ""] ∧
    (s.addressColumns = [] → firstRow ≠ [] →
      (handleFileChange (firstRow :: rest) s).addressColumns =
        [(firstRow.map (fun p => p.1)).headD ""]) ∧
    (s.addressColumns ≠ [] →
      (handleFileChange (firstRow :: rest) s).addressColumns =
        s.addressColumns) := by
  refine ⟨rfl, ?_, ?_⟩
  · intro h1 h2
    have hlen : 0 < firstRow.length := List.length_pos.mpr h2
    simp [handleFileChange, h1, hlen]
  · intro h1
    have hlen : s.addressColumns.length ≠ 0 := by
      simpa [List.length_eq_zero] using h1
    simp [handleFileChange, hlen]

/-- C8 amended witness: the encoding change resets a non-empty selection
to the first column, a file load seeds an empty selection, and a file
load leaves a non-empty selection alone. -/
theorem columnSelection_reseed_witness :
    (handleEncodingChange "Shift_JIS" [[("a", Value.str "x")]]
      { file := none, data := [], addressColumns := ["b"], columns := [],
        loading := false, progress := 0, error := "", success := false,
        geocoderReady := true, inputEncoding := "UTF-8" }).addressColumns =
      ["a"] ∧
    (handleFileChange [[("a", Value.str "x")]]
      { file := none, data := [], addressColumns := [], columns := [],
        loading := false, progress := 0, error := "", success := false,
        geocoderReady := true, inputEncoding := "UTF-8" }).addressColumns =
      ["a"] ∧
    (handleFileChange [[("a", Value.str "x")]]
      { file := none, data := [], addressColumns := ["b"], columns := [],
        loading := false, progress := 0, error := "", success := false,
        geocoderReady := true, inputEncoding := "UTF-8" }).addressColumns =
      ["b"] := by
  refine ⟨?_, ?_, ?_⟩
  · have h := (columnSelection_reseed
      { file := none, data := [], addressColumns := ["b"], columns := [],
        loading := false, progress := 0, error := "", success := false,
        geocoderReady := true, inputEncoding := "UTF-8" } "Shift_JIS"
      [("a", Value.str "x")] []).1
    simpa using h
  · have h := (columnSelection_reseed
      { file := none, data := [], addressColumns := [], columns := [],
        loading := false, progress := 0, error := "", success := false,
        geocoderReady := true, inputEncoding := "UTF-8" } "UTF-8"
      [("a", Value.str "x")] []).2.1 rfl (by decide)
    simpa using h
  · exact (columnSelection_reseed
      { file := none, data := [], addressColumns := ["b"], columns := [],
        loading := false, progress := 0, error := "", success := false,
        geocoderReady := true, inputEncoding := "UTF-8" } "UTF-8"
      [("a", Value.str "x")] []).2.2 (by decide)

/-- C10: On an empty parsed record sequence (with a file selected, a
non-empty column selection and a ready gateway), the run completes with
an empty enriched result, the success flag set, a final progress of 0,
the progress reports being exactly the initial 0 (100 is never reported),
and no gateway call. -/
theorem emptyInput_run (gw : String → GatewayBehavior) (s : AppState)
    (hf : s.file = some []) (hc : s.addressColumns ≠ [])
    (hr : s.geocoderReady = true) :
    (handleProcess gw s).1.data = [] ∧
    (handleProcess gw s).1.success = true ∧
    (handleProcess gw s).1.progress = 0 ∧
    (handleProcess gw s).2.1 = [0] ∧
    (∀ p ∈ (handleProcess gw s).2.1, p = 0) ∧
    (handleProcess gw s).2.2 = [] := by
  have hlen : s.addressColumns.length ≠ 0 := by
    simpa [List.length_eq_zero] using hc
  simp [handleProcess, hf, hlen, hr, processLoop]

/-- C10 witness: a concrete empty-input run. -/
theorem emptyInput_run_witness :
    (handleProcess (fun _ => GatewayBehavior.result 35 139)
      { file := some [], data := [], addressColumns := ["a"], columns := ["a"],
        loading := false, progress := 7, error := "x", success := false,
        geocoderReady := true, inputEncoding := "UTF-8" }).1.success = true ∧
    (handleProcess (fun _ => GatewayBehavior.result 35 139)
      { file := some [], data := [], addressColumns := ["a"], columns := ["a"],
        loading := false, progress := 7, error := "x", success := false,
        geocoderReady := true, inputEncoding := "UTF-8" }).2.1 = [0] := by
  have h := emptyInput_run (fun _ => GatewayBehavior.result 35 139)
    { file := some [], data := [], addressColumns := ["a"], columns := ["a"],
      loading := false, progress := 7, error := "x", success := false,
      geocoderReady := true, inputEncoding := "UTF-8" } rfl (by decide) rfl
  exact ⟨h.2.1, h.2.2.2.1⟩

/-! ## Progress arithmetic -/

theorem jsRound_mono {a b : Rat} (h : a ≤ b) : jsRound a ≤ jsRound b :=
  Int.floor_le_floor (by linarith)

theorem progressAfter_mono {i j : Nat} (total : Nat) (hij : i ≤ j) :
    progressAfter i total ≤ progressAfter j total := by
  unfold progressAfter
  apply jsRound_mono
  rcases Nat.eq_zero_or_pos total with h0 | hpos
  · subst h0
    simp
  · have hc : (0 : Rat) < (total : Rat) := by exact_mod_cast hpos
    have hnum : ((i : Rat) + 1) ≤ ((j : Rat) + 1) := by
      have : (i : Rat) ≤ (j : Rat) := by exact_mod_cast hij
      linarith
    gcongr

theorem progressAfter_nonneg (i total : Nat) : 0 ≤ progressAfter i total := by
  unfold progressAfter jsRound
  apply Int.le_floor.mpr
  rcases Nat.eq_zero_or_pos total with h0 | hpos
  · subst h0
    norm_num
  · have hc : (0 : Rat) < (total : Rat) := by exact_mod_cast hpos
    have hx : (0 : Rat) ≤ ((i : Rat) + 1) / (total : Rat) * 100 := by positivity
    push_cast
    linarith

theorem progressAfter_last (total : Nat) (h : total ≠ 0) :
    progressAfter (total - 1) total = 100 := by
  unfold progressAfter
  have h1 : 1 ≤ total := Nat.one_le_iff_ne_zero.mpr h
  have hcast : ((total - 1 : Nat) : Rat) + 1 = (total : Rat) := by
    push_cast [Nat.cast_sub h1]
    ring
  rw [hcast]
  have h2 : (total : Rat) ≠ 0 := by exact_mod_cast h
  rw [div_self h2, one_mul]
  norm_num [jsRound]

/-- C5: The progress reports of a run over a non-empty record sequence
are one per record; the report after record `i` (regardless of that
record's outcome) equals `round(100 * (i + 1) / totalCount)`; the
reported sequence — including the initial 0 set before the loop — is
monotonically non-decreasing; and the final reported value is exactly
100. -/
theorem progressReports_formula_monotone_final (gw : String → GatewayBehavior)
    (addressColumns : List String) (rows : List Row) (h : rows ≠ []) :
    (processLoop gw addressColumns rows 0 rows.length).2.1.length =
      rows.length ∧
    (∀ i : Nat, i < rows.length →
      (processLoop gw addressColumns rows 0 rows.length).2.1[i]? =
        some (jsRound (100 * ((i : Rat) + 1) / (rows.length : Rat)))) ∧
    List.Pairwise (· ≤ ·)
      ((0 : Int) :: (processLoop gw addressColumns rows 0 rows.length).2.1) ∧
    (processLoop gw addressColumns rows 0 rows.length).2.1.getLast? =
      some 100 := by
  have hrep := processLoop_reports gw addressColumns rows 0 rows.length
  have hn : rows.length ≠ 0 := by
    simpa [List.length_eq_zero] using h
  refine ⟨?_, ?_, ?_, ?_⟩
  · simp [hrep]
  · intro i hi
    rw [hrep, List.getElem?_map]
    have hr : (List.range rows.length)[i]? = some i := by
      simp [List.getElem?_range, hi]
    rw [hr]
    simp only [Option.map_some']
    congr 1
    unfold progressAfter
    congr 1
    push_cast
    ring
  · rw [hrep]
    refine List.pairwise_cons.mpr ⟨?_, ?_⟩
    · intro b hb
      obtain ⟨k, _, hk⟩ := List.mem_map.mp hb
      exact hk ▸ progressAfter_nonneg (0 + k) rows.length
    · exact (List.pairwise_lt_range rows.length).map _
        (fun a b hab => progressAfter_mono rows.length (by omega))
  · rw [hrep, List.getLast?_eq_getElem?]
    simp only [List.length_map, List.length_range]
    have hi : rows.length - 1 < rows.length :=
      Nat.sub_lt (Nat.pos_of_ne_zero hn) one_pos
    rw [List.getElem?_map]
    have hr : (List.range rows.length)[rows.length - 1]? =
        some (rows.length - 1) := by
      simp [List.getElem?_range, hi]
    rw [hr]
    simp only [Option.map_some', Nat.zero_add]
    rw [progressAfter_last rows.length hn]

/-- C5 witness: a two-record run reports `[50, 100]`-style progress with
the final value exactly 100. -/
theorem progressReports_formula_monotone_final_witness :
    (processLoop (fun _ => GatewayBehavior.result 35 139) ["a"]
      [[("a", Value.str "x")], [("a", Value.str "y")]] 0 2).2.1.getLast? =
      some 100 ∧
    (processLoop (fun _ => GatewayBehavior.result 35 139) ["a"]
      [[("a", Value.str "x")], [("a", Value.str "y")]] 0 2).2.1.length = 2 := by
  have h := progressReports_formula_monotone_final
    (fun _ => GatewayBehavior.result 35 139) ["a"]
    [[("a", Value.str "x")], [("a", Value.str "y")]] (by decide)
  exact ⟨h.2.2.2, h.1⟩
